import Mathlib

/-!
Shallow embedding of `cpp/src/trajectory/trajectory_distance_speed.cu`
(cuspatial, trajectory distance and speed reduction).

The CUDA kernel `compute_distance_and_speed_kernel` is modelled per thread
(`compute_distance_and_speed_thread`) over an abstract linearly ordered field
`α` standing for the floating-point element type, with the square root passed
as an explicit function `sqrt : α → α`. Timestamps are integer tick counts
together with a runtime type tag (`DType`) fixing the tick resolution, as in
cudf; `simt::std::chrono::floor` to milliseconds on integer representations is
exact scaling for coarse resolutions and flooring division (toward negative
infinity) for finer ones. Device memory reads are total: an out-of-range read
returns a junk value (modelled as `0`); the indices a thread actually reads
are tracked separately by `thread_read_indices` for the bounds-safety
analysis. The host entry point `trajectory_distance_and_speed` models the
`CUDF_EXPECTS` validations in source order and the two-level type dispatch
(`dispatch_element`, then `dispatch_timestamp`), returning `Except` where the
C++ code throws.
-/

namespace Cuspatial

/-- Runtime type tags of cudf columns, restricted to the kinds this file
needs: some non-floating numeric types, the two floating-point types, and the
five cudf timestamp resolutions. -/
inductive DType where
  | int8 | int16 | int32 | int64
  | float32 | float64
  | bool8
  | timestampDays | timestampSeconds | timestampMillis | timestampMicros | timestampNanos
  deriving DecidableEq, Repr

/-- Model of `std::is_floating_point` over the tag set. -/
def isFloatingPoint : DType → Bool
  | .float32 | .float64 => true
  | _ => false

/-- Model of `cudf::is_timestamp` over the tag set. -/
def isTimestamp : DType → Bool
  | .timestampDays | .timestampSeconds | .timestampMillis
  | .timestampMicros | .timestampNanos => true
  | _ => false

/-- Model of `simt::std::chrono::floor<milliseconds>` applied to the
difference of two timestamps of the given resolution, on integer tick
counts: exact scaling when the resolution is coarser than a millisecond,
flooring division (toward negative infinity, as `chrono::floor` specifies)
when it is finer. Non-timestamp tags never reach this point after dispatch;
they are mapped to the identity. -/
def floorToMs : DType → Int → Int
  | .timestampDays, d => d * 86400000
  | .timestampSeconds, d => d * 1000
  | .timestampMillis, d => d
  | .timestampMicros, d => Int.fdiv d 1000
  | .timestampNanos, d => Int.fdiv d 1000000
  | _, d => d

/-- Device memory read `column.element<T>(i)` at a (possibly negative) signed
index: an in-range index returns the stored value, any other index returns
junk, modelled as `0`. Which indices a thread reads is tracked separately by
`thread_read_indices`. -/
def intGet {α : Type} [Zero α] (l : List α) (i : Int) : α :=
  if 0 ≤ i then l.getD i.toNat 0 else 0

section Kernel

variable {α : Type} [LinearOrderedField α]

/-- The accumulation loop of the kernel,
`for (int32_t i = idx; i < end; ++i) dist_km += sqrt(pow(x1-x0,2) + pow(y1-y0,2))`,
with the iteration count `(end - idx).toNat` made explicit as fuel. -/
def distance_loop (sqrt : α → α) (x y : List α) : Int → Nat → α → α
  | _, 0, acc => acc
  | i, Nat.succ n, acc =>
      distance_loop sqrt x y (i + 1) n
        (acc + sqrt ((intGet x (i + 1) - intGet x i) ^ 2 +
                     (intGet y (i + 1) - intGet y i) ^ 2))

/-- Body of `compute_distance_and_speed_kernel` for one thread id `tid`
(which is one trajectory index), returning the pair
`(distance[tid], speed[tid])` it writes. -/
def compute_distance_and_speed_thread (sqrt : α → α) (x y : List α)
    (tsType : DType) (ts : List Int) (length offset : List Int) (tid : Nat) : α × α :=
  let len : Int := length.getD tid 0
  let idx : Int := offset.getD tid 0
  let iEnd : Int := idx + len - 1
  let time_ms : Int := floorToMs tsType (intGet ts iEnd - intGet ts idx)
  if len < 2 then (-2, -2)
  else if time_ms = 0 then (-3, -3)
  else
    let dist_km : α := distance_loop sqrt x y idx (iEnd - idx).toNat 0
    (dist_km * 1000, dist_km * 1000000 / (time_ms : α))

/-- The whole kernel launch: one thread per output slot (the output columns
are sized by `offset.size()`), each thread guarded by `tid < length.size()`.
A slot whose thread does not pass the guard is never written; its
uninitialised device memory is modelled as the fixed junk pair `(0, 0)`
(unreachable once validation has forced the two sizes equal). -/
def compute_distance_and_speed_kernel (sqrt : α → α) (x y : List α)
    (tsType : DType) (ts : List Int) (length offset : List Int) : List (α × α) :=
  (List.range offset.length).map fun tid =>
    if tid < length.length then
      compute_distance_and_speed_thread sqrt x y tsType ts length offset tid
    else (0, 0)

/-- The signed indices into the point/timestamp arrays that the thread for
`tid` reads, in source order: the timestamp reads at `end` and `idx` happen
unconditionally before any branch; the x/y reads `i` and `i + 1` happen only
in the normal branch. -/
def thread_read_indices (tsType : DType) (ts : List Int)
    (length offset : List Int) (tid : Nat) : List Int :=
  let len : Int := length.getD tid 0
  let idx : Int := offset.getD tid 0
  let iEnd : Int := idx + len - 1
  let time_ms : Int := floorToMs tsType (intGet ts iEnd - intGet ts idx)
  let tsReads : List Int := [iEnd, idx]
  if len < 2 then tsReads
  else if time_ms = 0 then tsReads
  else tsReads ++ (((List.range (iEnd - idx).toNat).map
    (fun k => [idx + Int.ofNat k, idx + Int.ofNat k + 1])).flatten)

/-- Whether every signed read index lands inside an array of length `n`. -/
def readsInBounds (n : Int) (reads : List Int) : Bool :=
  reads.all fun i => decide (0 ≤ i) && decide (i < n)

end Kernel

/-- The five column views (with their runtime type tags and null counts) that
`cuspatial::experimental::trajectory_distance_and_speed` receives. Data of
the x/y columns lives in the element carrier `α`; timestamp, length and
offset data are integer valued. -/
structure Columns (α : Type) where
  xType : DType
  x : List α
  xNullCount : Nat
  yType : DType
  y : List α
  yNullCount : Nat
  tsType : DType
  timestamp : List Int
  tsNullCount : Nat
  lengthType : DType
  length : List Int
  lengthNullCount : Nat
  offsetType : DType
  offset : List Int
  offsetNullCount : Nat

section Host

variable {α : Type} [LinearOrderedField α]

/-- Model of the host function `compute_distance_and_speed`: allocate the two
output columns and launch the kernel. -/
def compute_distance_and_speed (sqrt : α → α) (c : Columns α) :
    Except String (List (α × α)) :=
  .ok (compute_distance_and_speed_kernel sqrt c.x c.y c.tsType c.timestamp
        c.length c.offset)

/-- Inner dispatch on the timestamp column type (`dispatch_timestamp`): a
genuine timestamp tag instantiates the reducer, anything else fails with
`CUDF_FAIL("Timestamp must be a timestamp type")`. -/
def dispatch_timestamp (sqrt : α → α) (c : Columns α) :
    Except String (List (α × α)) :=
  if isTimestamp c.tsType then compute_distance_and_speed sqrt c
  else .error "Timestamp must be a timestamp type"

/-- Outer dispatch on the x column element type (`dispatch_element`): a
floating-point tag continues into the timestamp dispatch, anything else fails
with `CUDF_FAIL("X and Y must be floating point types")`. Note it is driven
by `x.type()` alone; the y column's tag is never consulted. -/
def dispatch_element (sqrt : α → α) (c : Columns α) :
    Except String (List (α × α)) :=
  if isFloatingPoint c.xType then dispatch_timestamp sqrt c
  else .error "X and Y must be floating point types"

/-- The public entry point `trajectory_distance_and_speed`: the seven
`CUDF_EXPECTS` validations in source order, then the type dispatch rooted at
`x.type()`. -/
def trajectory_distance_and_speed (sqrt : α → α) (c : Columns α) :
    Except String (List (α × α)) :=
  if ¬(c.x.length ≠ 0 ∧ c.length.length ≠ 0) then
    .error "Insufficient trajectory data"
  else if ¬(c.x.length = c.y.length ∧ c.x.length = c.timestamp.length ∧
            c.length.length = c.offset.length) then
    .error "Data size mismatch"
  else if ¬(isTimestamp c.tsType = true) then
    .error "Invalid timestamp datatype"
  else if ¬(c.lengthType = DType.int32) then
    .error "Invalid trajectory length type"
  else if ¬(c.offsetType = DType.int32) then
    .error "Invalid trajectory offset type"
  else if ¬(c.xNullCount = 0 ∧ c.yNullCount = 0 ∧ c.tsNullCount = 0 ∧
            c.offsetNullCount = 0) then
    .error "NULL support unimplemented"
  else if ¬(0 < c.offset.length ∧ c.offset.length ≤ c.x.length) then
    .error "Insufficient trajectory data"
  else dispatch_element sqrt c

end Host

/-! Claim-side definitions: renderings of the specification's wording, to be
compared against the definitions embedded from the source. -/

/-- Start index `idx = offset[g]` of trajectory `g`. -/
def trajStart (offset : List Int) (tid : Nat) : Int :=
  offset.getD tid 0

/-- Last point index `end = offset[g] + length[g] - 1` of trajectory `g`. -/
def trajLast (length offset : List Int) (tid : Nat) : Int :=
  offset.getD tid 0 + length.getD tid 0 - 1

/-- The elapsed time in whole milliseconds that the reducer uses for
trajectory `g`: the timestamp difference `ts[end] - ts[idx]` put through the
kernel's `chrono::floor` conversion. Definitionally equal to the `time_ms`
value inside `compute_distance_and_speed_thread`. -/
def elapsed_ms (tsType : DType) (ts length offset : List Int) (tid : Nat) : Int :=
  floorToMs tsType (intGet ts (trajLast length offset tid) - intGet ts (trajStart offset tid))

/-- Spec wording of the claim's rounding mode for the elapsed time:
truncation toward zero at millisecond granularity (`Int.tdiv` rounds toward
zero). -/
def truncToMs : DType → Int → Int
  | .timestampDays, d => d * 86400000
  | .timestampSeconds, d => d * 1000
  | .timestampMillis, d => d
  | .timestampMicros, d => Int.tdiv d 1000
  | .timestampNanos, d => Int.tdiv d 1000000
  | _, d => d

/-- How many ticks of the given resolution make one millisecond (1 for
resolutions at least as coarse as a millisecond). -/
def subMsTicks : DType → Int
  | .timestampMicros => 1000
  | .timestampNanos => 1000000
  | _ => 1

/-- How many milliseconds one tick of the given resolution is worth (1 for
resolutions at least as fine as a millisecond). -/
def msScale : DType → Int
  | .timestampDays => 86400000
  | .timestampSeconds => 1000
  | _ => 1

/-- The consecutive-pair indices `i ∈ [idx, idx + len - 1)` of the spec's
segment sum. -/
def specPairIndices (idx len : Int) : List Int :=
  (List.range (len - 1).toNat).map fun k => idx + Int.ofNat k

/-- The spec's segment sum: the left-to-right fold, over consecutive point
pairs `i ∈ [idx, idx + len - 1)`, of
`sqrt((x[i+1] - x[i])^2 + (y[i+1] - y[i])^2)`, starting from `0`. -/
def specSegmentSum {α : Type} [LinearOrderedField α] (sqrt : α → α)
    (x y : List α) (idx len : Int) : α :=
  (specPairIndices idx len).foldl
    (fun a j => a + sqrt ((intGet x (j + 1) - intGet x j) ^ 2 +
                          (intGet y (j + 1) - intGet y j) ^ 2)) 0

/-- The per-trajectory result as a function of only `length[g]`, `offset[g]`
and the shared point/timestamp arrays (no other trajectory's descriptor row
enters). -/
def compute_one {α : Type} [LinearOrderedField α] (sqrt : α → α) (x y : List α)
    (tsType : DType) (ts : List Int) (len idx : Int) : α × α :=
  let iEnd : Int := idx + len - 1
  let time_ms : Int := floorToMs tsType (intGet ts iEnd - intGet ts idx)
  if len < 2 then (-2, -2)
  else if time_ms = 0 then (-3, -3)
  else
    let dist_km : α := distance_loop sqrt x y idx (iEnd - idx).toNat 0
    (dist_km * 1000, dist_km * 1000000 / (time_ms : α))

/-- The disjunction of precondition violations listed by the claim: any one
of them must make the whole call fail with a validation error. -/
def violatesPreconditions {α : Type} (c : Columns α) : Prop :=
  c.x = [] ∨ c.length = [] ∨
  ¬(c.x.length = c.y.length ∧ c.x.length = c.timestamp.length) ∨
  c.length.length ≠ c.offset.length ∨
  isTimestamp c.tsType = false ∨
  c.lengthType ≠ DType.int32 ∨ c.offsetType ≠ DType.int32 ∨
  c.xNullCount ≠ 0 ∨ c.yNullCount ≠ 0 ∨ c.tsNullCount ≠ 0 ∨ c.offsetNullCount ≠ 0 ∨
  c.offset.length = 0 ∨ c.x.length < c.offset.length

/-! Helper lemmas. -/

/-- The kernel's accumulation loop is the left-to-right fold of the segment
step function over the indices `i, i+1, …, i+n-1`. -/
theorem distance_loop_eq_foldl {α : Type} [LinearOrderedField α]
    (sqrt : α → α) (x y : List α) :
    ∀ (n : Nat) (i : Int) (acc : α),
      distance_loop sqrt x y i n acc =
      ((List.range n).map fun k => i + Int.ofNat k).foldl
        (fun a j => a + sqrt ((intGet x (j + 1) - intGet x j) ^ 2 +
                              (intGet y (j + 1) - intGet y j) ^ 2)) acc
  | 0, i, acc => rfl
  | Nat.succ n, i, acc => by
    rw [List.range_succ_eq_map, List.map_cons, List.foldl_cons, List.map_map]
    have hf : ((fun k => i + Int.ofNat k) ∘ Nat.succ) =
        fun k => (i + 1) + Int.ofNat k := by
      funext k
      simp [Int.ofNat_succ]
      ring
    rw [hf]
    have := distance_loop_eq_foldl sqrt x y n (i + 1)
      (acc + sqrt ((intGet x (i + 1) - intGet x i) ^ 2 +
                   (intGet y (i + 1) - intGet y i) ^ 2))
    rw [distance_loop]
    simpa using this

/-- One kernel thread computes exactly `compute_one` of its own descriptor
row: the per-trajectory result depends on no other row. -/
theorem thread_eq_compute_one {α : Type} [LinearOrderedField α]
    (sqrt : α → α) (x y : List α) (tsType : DType) (ts length offset : List Int)
    (tid : Nat) :
    compute_distance_and_speed_thread sqrt x y tsType ts length offset tid =
      compute_one sqrt x y tsType ts (length.getD tid 0) (offset.getD tid 0) := rfl

/-! Theorems for the claims. -/

/-- C2: for every trajectory with `length[g] < 2`, both outputs are exactly
the sentinel `-2.0`, regardless of the coordinate and timestamp contents. -/
theorem tds_C2_theorem {α : Type} [LinearOrderedField α] (sqrt : α → α)
    (x y : List α) (tsType : DType) (ts length offset : List Int) (tid : Nat)
    (h : length.getD tid 0 < 2) :
    compute_distance_and_speed_thread sqrt x y tsType ts length offset tid =
      (-2, -2) := by
  simp only [compute_distance_and_speed_thread]
  rw [if_pos h]

/-- Witness for C2 at a concrete input: the second of two trajectories has a
single point, so its slot gets `(-2, -2)`. -/
theorem tds_C2_witness :
    (([3, 1] : List Int).getD 1 0 < 2) ∧
    compute_distance_and_speed_thread (α := ℚ) (fun q => q) [0, 1, 2] [0, 1, 2]
      DType.timestampMillis [0, 5, 9] [3, 1] [0, 2] 1 = (-2, -2) :=
  ⟨by decide, tds_C2_theorem (fun q => q) [0, 1, 2] [0, 1, 2]
    DType.timestampMillis [0, 5, 9] [3, 1] [0, 2] 1 (by decide)⟩

/-- C3: for every trajectory with `length[g] ≥ 2` whose floored elapsed time
is exactly zero, both outputs are exactly the sentinel `-3.0`. -/
theorem tds_C3_theorem {α : Type} [LinearOrderedField α] (sqrt : α → α)
    (x y : List α) (tsType : DType) (ts length offset : List Int) (tid : Nat)
    (h2 : 2 ≤ length.getD tid 0)
    (h0 : elapsed_ms tsType ts length offset tid = 0) :
    compute_distance_and_speed_thread sqrt x y tsType ts length offset tid =
      (-3, -3) := by
  have hn : ¬(length.getD tid 0 < 2) := by omega
  simp only [elapsed_ms, trajLast, trajStart] at h0
  simp only [compute_distance_and_speed_thread]
  rw [if_neg hn, if_pos h0]

/-- Witness for C3 at a concrete input: two points with equal millisecond
timestamps give the sentinel `(-3, -3)`. -/
theorem tds_C3_witness :
    (2 ≤ ([2] : List Int).getD 0 0) ∧
    elapsed_ms DType.timestampMillis [100, 100] [2] [0] 0 = 0 ∧
    compute_distance_and_speed_thread (α := ℚ) (fun q => q) [0, 3] [0, 4]
      DType.timestampMillis [100, 100] [2] [0] 0 = (-3, -3) :=
  ⟨by decide, by decide, tds_C3_theorem (fun q => q) [0, 3] [0, 4]
    DType.timestampMillis [100, 100] [2] [0] 0 (by decide) (by decide)⟩

/-- C1: for every trajectory with `length[g] ≥ 2` and non-zero floored
elapsed time, the distance output is the spec's left-to-right segment sum
times `1000` and the speed output is the sum times `1000000` divided by the
floored elapsed milliseconds. -/
theorem tds_C1_theorem {α : Type} [LinearOrderedField α] (sqrt : α → α)
    (x y : List α) (tsType : DType) (ts length offset : List Int) (tid : Nat)
    (h2 : 2 ≤ length.getD tid 0)
    (h0 : elapsed_ms tsType ts length offset tid ≠ 0) :
    compute_distance_and_speed_thread sqrt x y tsType ts length offset tid =
      (specSegmentSum sqrt x y (trajStart offset tid) (length.getD tid 0) * 1000,
       specSegmentSum sqrt x y (trajStart offset tid) (length.getD tid 0) * 1000000 /
         (elapsed_ms tsType ts length offset tid : α)) := by
  have hn : ¬(length.getD tid 0 < 2) := by omega
  simp only [elapsed_ms, trajLast, trajStart] at h0 ⊢
  simp only [compute_distance_and_speed_thread]
  rw [if_neg hn, if_neg h0]
  have harg : offset.getD tid 0 + length.getD tid 0 - 1 - offset.getD tid 0 =
      length.getD tid 0 - 1 := by ring
  rw [harg, distance_loop_eq_foldl]
  simp [specSegmentSum, specPairIndices, trajStart]

/-- Witness for C1 at a concrete input: a three-point trajectory, one second
between first and last sample. -/
theorem tds_C1_witness :
    (2 ≤ ([3] : List Int).getD 0 0) ∧
    elapsed_ms DType.timestampMillis [0, 400, 1000] [3] [0] 0 ≠ 0 ∧
    compute_distance_and_speed_thread (α := ℚ) (fun q => q) [0, 1, 3] [0, 2, 6]
      DType.timestampMillis [0, 400, 1000] [3] [0] 0 =
      (specSegmentSum (fun q => q) [0, 1, 3] [0, 2, 6] (trajStart [0] 0)
         (([3] : List Int).getD 0 0) * 1000,
       specSegmentSum (fun q => q) [0, 1, 3] [0, 2, 6] (trajStart [0] 0)
         (([3] : List Int).getD 0 0) * 1000000 /
         ((elapsed_ms DType.timestampMillis [0, 400, 1000] [3] [0] 0 : Int) : ℚ)) :=
  ⟨by decide, by decide, tds_C1_theorem (fun q => q) [0, 1, 3] [0, 2, 6]
    DType.timestampMillis [0, 400, 1000] [3] [0] 0 (by decide) (by decide)⟩

/-- C4 counterexample: with microsecond timestamps and a negative
sub-millisecond elapsed time (`ts = [500, 0]` microseconds, so
`ts[end] - ts[idx] = -500 µs`), the kernel's `chrono::floor` conversion
yields `-1` ms, while the claim's truncation toward zero yields `0` ms —
the negative sub-millisecond case does not collapse to zero. -/
theorem tds_C4_counterexample :
    elapsed_ms DType.timestampMicros [500, 0] [2] [0] 0 = -1 ∧
    truncToMs DType.timestampMicros
      (intGet [500, 0] (trajLast [2] [0] 0) - intGet [500, 0] (trajStart [0] 0)) = 0 := by
  decide

/-- C4 (amended): the elapsed time used by the reducer is
`ts[end] - ts[idx]` floored (toward negative infinity) at millisecond
granularity: scaling the tick difference to milliseconds, it is the unique
integer `m` with `m ≤ exact elapsed < m + 1`; consequently a positive
sub-millisecond elapsed time collapses to zero, while a negative
sub-millisecond elapsed time floors to `-1`. -/
theorem tds_C4_theorem (tsType : DType) (ts length offset : List Int) (tid : Nat)
    (h : isTimestamp tsType = true) :
    subMsTicks tsType * elapsed_ms tsType ts length offset tid ≤
      msScale tsType *
        (intGet ts (trajLast length offset tid) - intGet ts (trajStart offset tid)) ∧
    msScale tsType *
        (intGet ts (trajLast length offset tid) - intGet ts (trajStart offset tid)) <
      subMsTicks tsType * (elapsed_ms tsType ts length offset tid + 1) ∧
    (0 ≤ msScale tsType *
          (intGet ts (trajLast length offset tid) - intGet ts (trajStart offset tid)) →
     msScale tsType *
         (intGet ts (trajLast length offset tid) - intGet ts (trajStart offset tid)) <
       subMsTicks tsType →
     elapsed_ms tsType ts length offset tid = 0) := by
  cases tsType <;> first
    | simp at h
    | (simp only [elapsed_ms, trajLast, trajStart, floorToMs, subMsTicks, msScale]
       omega)
    | (simp only [elapsed_ms, trajLast, trajStart, floorToMs, subMsTicks, msScale]
       rw [Int.fdiv_eq_ediv _ (by norm_num)]
       omega)

/-- Witness for the amended C4 at a concrete input: microsecond timestamps
`[0, 1500]`, elapsed `1500 µs`, floored to `1` ms. -/
theorem tds_C4_witness :
    isTimestamp DType.timestampMicros = true ∧
    (subMsTicks DType.timestampMicros * elapsed_ms DType.timestampMicros [0, 1500] [2] [0] 0 ≤
      msScale DType.timestampMicros *
        (intGet [0, 1500] (trajLast [2] [0] 0) - intGet [0, 1500] (trajStart [0] 0)) ∧
    msScale DType.timestampMicros *
        (intGet [0, 1500] (trajLast [2] [0] 0) - intGet [0, 1500] (trajStart [0] 0)) <
      subMsTicks DType.timestampMicros * (elapsed_ms DType.timestampMicros [0, 1500] [2] [0] 0 + 1) ∧
    (0 ≤ msScale DType.timestampMicros *
          (intGet [0, 1500] (trajLast [2] [0] 0) - intGet [0, 1500] (trajStart [0] 0)) →
     msScale DType.timestampMicros *
         (intGet [0, 1500] (trajLast [2] [0] 0) - intGet [0, 1500] (trajStart [0] 0)) <
       subMsTicks DType.timestampMicros →
     elapsed_ms DType.timestampMicros [0, 1500] [2] [0] 0 = 0)) :=
  ⟨rfl, tds_C4_theorem DType.timestampMicros [0, 1500] [2] [0] 0 rfl⟩

/-- C5: a non-floating x element type or a non-temporal timestamp type makes
the whole call fail with an explicit error; no result is ever produced for
such a combination. -/
theorem tds_C5_theorem {α : Type} [LinearOrderedField α] (sqrt : α → α)
    (c : Columns α)
    (h : isFloatingPoint c.xType = false ∨ isTimestamp c.tsType = false) :
    ∃ e, trajectory_distance_and_speed sqrt c = Except.error e := by
  unfold trajectory_distance_and_speed dispatch_element dispatch_timestamp
  repeat' split
  all_goals first
    | exact ⟨_, rfl⟩
    | simp_all

/-- Witness for C5 at a concrete input: an `int32` x column is rejected. -/
theorem tds_C5_witness :
    (isFloatingPoint DType.int32 = false ∨ isTimestamp DType.timestampMillis = false) ∧
    ∃ e, trajectory_distance_and_speed (α := ℚ) (fun q => q)
      { xType := DType.int32, x := [0], xNullCount := 0,
        yType := DType.int32, y := [0], yNullCount := 0,
        tsType := DType.timestampMillis, timestamp := [0], tsNullCount := 0,
        lengthType := DType.int32, length := [1], lengthNullCount := 0,
        offsetType := DType.int32, offset := [0], offsetNullCount := 0 } =
      Except.error e :=
  ⟨Or.inl rfl, tds_C5_theorem (fun q => q) _ (Or.inl rfl)⟩

/-- C6: violating any of the listed preconditions makes the whole call fail
with a validation error; no output list is produced. -/
theorem tds_C6_theorem {α : Type} [LinearOrderedField α] (sqrt : α → α)
    (c : Columns α) (h : violatesPreconditions c) :
    ∃ e, trajectory_distance_and_speed sqrt c = Except.error e := by
  unfold trajectory_distance_and_speed
  repeat' split
  all_goals try exact ⟨_, rfl⟩
  exfalso
  unfold violatesPreconditions at h
  rcases h with h | h | h | h | h | h | h | h | h | h | h | h | h <;>
    simp_all [List.length_eq_zero]
  omega

/-- Witness for C6 at a concrete input: `len(x) = 2` but `len(y) = 1`. -/
theorem tds_C6_witness :
    violatesPreconditions (α := ℚ)
      { xType := DType.float64, x := [0, 1], xNullCount := 0,
        yType := DType.float64, y := [0], yNullCount := 0,
        tsType := DType.timestampMillis, timestamp := [0, 1], tsNullCount := 0,
        lengthType := DType.int32, length := [2], lengthNullCount := 0,
        offsetType := DType.int32, offset := [0], offsetNullCount := 0 } ∧
    ∃ e, trajectory_distance_and_speed (α := ℚ) (fun q => q)
      { xType := DType.float64, x := [0, 1], xNullCount := 0,
        yType := DType.float64, y := [0], yNullCount := 0,
        tsType := DType.timestampMillis, timestamp := [0, 1], tsNullCount := 0,
        lengthType := DType.int32, length := [2], lengthNullCount := 0,
        offsetType := DType.int32, offset := [0], offsetNullCount := 0 } =
      Except.error e :=
  ⟨by unfold violatesPreconditions; decide,
   tds_C6_theorem (fun q => q) _ (by unfold violatesPreconditions; decide)⟩

/-- Under equal descriptor sizes, the kernel output is the map of the
per-row function `compute_one` over the zipped descriptor: each output row
is a function of its own `(length[g], offset[g])` and the shared arrays
only. -/
theorem kernel_eq_map_zip {α : Type} [LinearOrderedField α] (sqrt : α → α)
    (x y : List α) (tsType : DType) (ts : List Int) (length offset : List Int)
    (h : length.length = offset.length) :
    compute_distance_and_speed_kernel sqrt x y tsType ts length offset =
      (length.zip offset).map fun p => compute_one sqrt x y tsType ts p.1 p.2 := by
  apply List.ext_getElem
  · simp [compute_distance_and_speed_kernel, h]
  · intro i h1 h2
    have hi : i < length.length := by
      simp only [compute_distance_and_speed_kernel, List.length_map,
        List.length_range] at h1
      omega
    simp only [compute_distance_and_speed_kernel, List.getElem_map,
      List.getElem_range, List.getElem_zip]
    rw [if_pos hi, thread_eq_compute_one]
    rw [List.getD_eq_getElem length 0 hi, List.getD_eq_getElem offset 0 (by omega)]

/-- C7: each output slot is a function only of its own descriptor row
`(length[g], offset[g])` and the shared arrays (`compute_one`), and any two
positions of two descriptors holding the same row get the same output pair
in exactly those positions. Hence a descriptor whose rows are a permutation
of another's, via any position map `i ↦ j`, has its outputs permuted by that
same position map — identically, with no cross-contamination (an
output-reversing kernel would violate this pointwise statement). -/
theorem tds_C7_theorem {α : Type} [LinearOrderedField α] (sqrt : α → α)
    (x y : List α) (tsType : DType) (ts : List Int)
    (length₁ offset₁ length₂ offset₂ : List Int) (i j : Nat)
    (h1 : length₁.length = offset₁.length) (h2 : length₂.length = offset₂.length)
    (hi : i < offset₁.length) (hj : j < offset₂.length)
    (hlen : length₁.getD i 0 = length₂.getD j 0)
    (hoff : offset₁.getD i 0 = offset₂.getD j 0) :
    (compute_distance_and_speed_kernel sqrt x y tsType ts length₁ offset₁).getD i (0, 0) =
      compute_one sqrt x y tsType ts (length₁.getD i 0) (offset₁.getD i 0) ∧
    (compute_distance_and_speed_kernel sqrt x y tsType ts length₁ offset₁).getD i (0, 0) =
      (compute_distance_and_speed_kernel sqrt x y tsType ts length₂ offset₂).getD j (0, 0) := by
  have key : ∀ (l o : List Int) (k : Nat), l.length = o.length → k < o.length →
      (compute_distance_and_speed_kernel sqrt x y tsType ts l o).getD k (0, 0) =
        compute_one sqrt x y tsType ts (l.getD k 0) (o.getD k 0) := by
    intro l o k h hk
    rw [kernel_eq_map_zip sqrt x y tsType ts l o h]
    have hz : k < (l.zip o).length := by
      rw [List.length_zip]
      omega
    rw [List.getD_eq_getElem _ _ (by simpa using hz), List.getElem_map, List.getElem_zip]
    rw [List.getD_eq_getElem l 0 (by omega), List.getD_eq_getElem o 0 hk]
  refine ⟨key length₁ offset₁ i h1 hi, ?_⟩
  rw [key length₁ offset₁ i h1 hi, key length₂ offset₂ j h2 hj, hlen, hoff]

/-- Witness for C7 at a concrete input: the descriptor row `(2, 0)` sits at
position 0 of the first descriptor and at position 1 of the row-swapped
second descriptor, and the output pairs at those two positions coincide. -/
theorem tds_C7_witness :
    ([2, 1] : List Int).length = ([0, 2] : List Int).length ∧
    ([1, 2] : List Int).length = ([2, 0] : List Int).length ∧
    0 < ([0, 2] : List Int).length ∧ 1 < ([2, 0] : List Int).length ∧
    ([2, 1] : List Int).getD 0 0 = ([1, 2] : List Int).getD 1 0 ∧
    ([0, 2] : List Int).getD 0 0 = ([2, 0] : List Int).getD 1 0 ∧
    ((compute_distance_and_speed_kernel (α := ℚ) (fun q => q) [0, 1, 2] [0, 1, 2]
        DType.timestampMillis [0, 500, 900] [2, 1] [0, 2]).getD 0 (0, 0) =
      compute_one (fun q => q) [0, 1, 2] [0, 1, 2] DType.timestampMillis [0, 500, 900]
        (([2, 1] : List Int).getD 0 0) (([0, 2] : List Int).getD 0 0) ∧
    (compute_distance_and_speed_kernel (α := ℚ) (fun q => q) [0, 1, 2] [0, 1, 2]
        DType.timestampMillis [0, 500, 900] [2, 1] [0, 2]).getD 0 (0, 0) =
      (compute_distance_and_speed_kernel (α := ℚ) (fun q => q) [0, 1, 2] [0, 1, 2]
        DType.timestampMillis [0, 500, 900] [1, 2] [2, 0]).getD 1 (0, 0)) :=
  ⟨rfl, rfl, by decide, by decide, rfl, rfl,
   tds_C7_theorem (fun q => q) [0, 1, 2] [0, 1, 2] DType.timestampMillis [0, 500, 900]
     [2, 1] [0, 2] [1, 2] [2, 0] 0 1 rfl rfl (by decide) (by decide) rfl rfl⟩

/-- C8: for a two-point trajectory at `(0,0)` and `(3,4)` one second apart,
any square-root model that (like IEEE arithmetic) maps the exactly
representable `25` to `5` gives the output `(5000, 5000)`. -/
theorem tds_C8_theorem {α : Type} [LinearOrderedField α] (sqrt : α → α)
    (h : sqrt 25 = 5) :
    compute_distance_and_speed_thread sqrt [0, 3] [0, 4] DType.timestampSeconds
      [0, 1] [2] [0] 0 = (5000, 5000) := by
  simp only [compute_distance_and_speed_thread, distance_loop, intGet, floorToMs]
  norm_num [List.getD]
  rw [h]
  norm_num

/-- Witness for C8: instantiating the square root with a function mapping
`25` to `5`. -/
theorem tds_C8_witness :
    (fun _ : ℚ => (5 : ℚ)) 25 = 5 ∧
    compute_distance_and_speed_thread (fun _ : ℚ => (5 : ℚ)) [0, 3] [0, 4]
      DType.timestampSeconds [0, 1] [2] [0] 0 = (5000, 5000) :=
  ⟨rfl, tds_C8_theorem (fun _ : ℚ => (5 : ℚ)) rfl⟩

/-- C9: the claim fails on the code. At the input with one trajectory of
`length[0] = 0` at `offset[0] = 0` (which satisfies the stated invariant:
`offset[0] + length[0] - 1 = -1 < 1 = len(x)` and `length[0] ≥ 0`), the
kernel's unconditional timestamp reads are at indices `[-1, 0]`, and `-1`
is outside `[0, len(timestamp))`. -/
theorem tds_C9_theorem :
    ([0] : List Int).getD 0 0 = 0 ∧ (0 : Int) ≤ ([0] : List Int).getD 0 0 ∧
    trajLast [0] [0] 0 < 1 ∧
    thread_read_indices DType.timestampMillis [7] [0] [0] 0 = [-1, 0] ∧
    readsInBounds 1 (thread_read_indices DType.timestampMillis [7] [0] [0] 0) = false := by
  decide

/-- C10: the element dispatch consults only the x column's type tag: the
result is invariant under changing the y column's tag, and a call whose x
column is floating-point but whose y column tag is a non-floating type is
not rejected. -/
theorem tds_C10_theorem :
    (∀ (α : Type) [LinearOrderedField α] (sqrt : α → α) (c : Columns α) (yt : DType),
        trajectory_distance_and_speed sqrt { c with yType := yt } =
          trajectory_distance_and_speed sqrt c) ∧
    (∃ c : Columns ℚ, isFloatingPoint c.xType = true ∧ isFloatingPoint c.yType = false ∧
        ∃ out, trajectory_distance_and_speed (fun q => q) c = Except.ok out) := by
  constructor
  · intro α instF sqrt c yt
    cases c
    rfl
  · exact ⟨{ xType := .float64, x := [0], xNullCount := 0,
             yType := .int32, y := [0], yNullCount := 0,
             tsType := .timestampMillis, timestamp := [0], tsNullCount := 0,
             lengthType := .int32, length := [1], lengthNullCount := 0,
             offsetType := .int32, offset := [0], offsetNullCount := 0 },
           rfl, rfl, [(-2, -2)], rfl⟩

end Cuspatial
